import Mathlib

/-!
Verification of the audi-ticket-web backend's monitoring and carting engine.

The development shallowly embeds the Python sources under
`backend/app/` — `bot/core.py` (remote-site client), `bot/monitor.py`
(task runtime, cart race, task supervisor), `api/tasks.py` (task REST
endpoints) and `config.py` (settings) — as executable Lean definitions.
Network I/O is represented by explicit fetch-outcome values and oracle
functions; database writes and broadcasts are represented as explicit
action traces or state updates.
-/

namespace AudiTicket

/-- Boolean substring search on character lists: `needle` occurs inside the
scanned list.  Models Python's `in` operator on strings. -/
def containsSubAux (needle : List Char) : List Char → Bool
  | [] => needle.isEmpty
  | c :: rest => needle.isPrefixOf (c :: rest) || containsSubAux needle rest

/-- `containsSub hay needle = true` iff `needle` is a substring of `hay`
(Python `needle in hay`). -/
def containsSub (hay needle : String) : Bool :=
  containsSubAux needle.data hay.data

/-- `models.TaskStatus`: the five persisted lifecycle states. -/
inductive TaskStatus where
  | pending
  | running
  | success
  | failed
  | stopped
deriving DecidableEq, Repr

/-- One slot of the availability snapshot (`core.py` ticket dict entries):
`time`, `qty_available`, `traffic_light`, `variations`. -/
structure TicketEntry where
  time : String
  qty_available : Int
  traffic_light : Int
  variations : List String
deriving DecidableEq, Repr

/-- An availability snapshot: the JSON object mapping a date string to its
list of time-slot entries (`data` in `_run_monitor`).  Modelled as an
association list in the iteration order of the Python dict. -/
abbrev Snapshot : Type := List (String × List TicketEntry)

/-- `monitor.py` lines 177-184: total available tickets of a snapshot,
counting only positive quantities
(`sum(sum(max(0, t.get('qty_available', 0)) for t in tickets) for tickets in data.values())`). -/
def totalAvailable (d : Snapshot) : Int :=
  (d.map (fun kv => (kv.2.map (fun t => max 0 t.qty_available)).sum)).sum

/-- Total availability of an optional snapshot: `total_available` stays `0`
when the fetch returned `None` (`monitor.py` lines 176-184). -/
def totalAvailableOpt : Option Snapshot → Int
  | none => 0
  | some d => totalAvailable d

/-- `monitor.py` line 216: the guard of the processing block,
`if data and total_available > 0 and data != previous_data`.
`data` is truthy iff it is a non-`None`, non-empty dict. -/
def raceGuard (data : Option Snapshot) (previous_data : Option Snapshot) : Bool :=
  match data with
  | none => false
  | some d => !(List.isEmpty d) && decide (0 < totalAvailable d) && decide (some d ≠ previous_data)

/-- Outcome of one network fetch: a raised transport exception, or an HTTP
response with status code and (already parsed) payload. -/
inductive Fetch (α : Type) where
  | failure (message : String)
  | response (status : Nat) (payload : α)

/-- `core.py` `CookieData`: name, value and domain of a session cookie. -/
structure CookieData where
  name : String
  value : String
  domain : String
deriving DecidableEq, Repr

/-- The relevant content of the product page as consumed by
`extract_event_details`: the `action` attribute of the first `<form>`
(when a form with that attribute exists) and the `content` attribute of
the `<meta itemprop="sku">` tag (when present). -/
structure ProductPage where
  formAction : Option String
  skuContent : Option String
deriving DecidableEq, Repr

/-- The characters of the current segment are accumulated in reverse; a
separator starts a new segment; the segment open at the end is the
answer. -/
def lastSegAux (sep : Char) (cur : List Char) : List Char → List Char
  | [] => cur.reverse
  | a :: rest => if a = sep then lastSegAux sep [] rest else lastSegAux sep (a :: cur) rest

/-- Python's `s.split(sep)[-1]` for the one-character separators used by
`extract_event_details` (`'/'` and `'-'`): the segment after the final
occurrence of `sep`, or `s` itself when `sep` does not occur. -/
def lastSplit (sep : Char) (s : String) : String :=
  String.mk (lastSegAux sep [] s.data)

/-- The body of the `try` block of `core.py` `extract_event_details`
(lines 73-101).  A transport failure raises (modelled as `Except.error`);
a response is processed: non-200 yields `(None, None)`; otherwise the
event id is the last `/`-segment of the form action (missing or empty
attribute yields `None`) and the ticket id is the last `-`-segment of the
sku content (missing or empty yields `None`). -/
def extract_event_details_body (f : Fetch ProductPage) :
    Except String (Option String × Option String) :=
  match f with
  | .failure msg => Except.error msg
  | .response status page =>
    if status ≠ 200 then Except.ok (none, none)
    else
      let event_id : Option String :=
        match page.formAction with
        | some a => if a = "" then none else some (lastSplit '/' a)
        | none => none
      let ticket_id : Option String :=
        match page.skuContent with
        | some c => if c = "" then none else some (lastSplit '-' c)
        | none => none
      Except.ok (event_id, ticket_id)

/-- `core.py` `extract_event_details` (lines 66-105): the `try` body with
the enclosing `except Exception` handler, which converts any raised
exception into the `(None, None)` result. -/
def extract_event_details (f : Fetch ProductPage) : Option String × Option String :=
  match extract_event_details_body f with
  | Except.ok r => r
  | Except.error _ => (none, none)

/-- The parsed JSON body of the add-to-cart POST response as consumed by
`add_to_cart` (lines 235-269): the `success` flag, the
`qtm_quote_item_ids` string (default `""`), the `qtm_quote_item_qtys`
count (default `0`), the returned `checkout_url`, the `text` fields of
`messages`, and the optional `error` field. -/
structure AtcResponse where
  success : Bool
  qtm_quote_item_ids : String
  qtm_quote_item_qtys : Int
  checkout_url : String
  messages : List String
  errorField : Option String
deriving DecidableEq, Repr

/-- `core.py` lines 323-329: checkout-page phrases indicating an invalid
(phantom) cart. -/
def error_indicators : List String :=
  ["nicht mehr verfügbar", "Warenkorb ist leer", "leider nicht mehr",
   "ausverkauft", "Bedauerlicherweise"]

/-- `core.py` lines 337-342: checkout-page phrases indicating items in the
cart. -/
def success_indicators : List String :=
  ["Zusammenfassung", "Zwischensumme", "Gesamtsumme", "Weiter zur Kasse"]

/-- `core.py` `_verify_cart_at_checkout` (lines 304-359): fetch the checkout
page in the same session; any exception or non-200 status yields `False`;
otherwise the error indicators are scanned first (any hit returns `False`),
then the success indicators (any hit returns `True`); no indicator at all
yields `False`. -/
def verify_cart_at_checkout (f : Fetch String) : Bool :=
  match f with
  | .failure _ => false
  | .response status html =>
    if status = 200 then
      if error_indicators.any (fun ind => containsSub html ind) then false
      else success_indicators.any (fun ind => containsSub html ind)
    else false

/-- `core.py` lines 260-268: the error message extracted when the vendor
response does not report success. -/
def atc_error_message (rd : AtcResponse) : String :=
  match rd.messages with
  | m :: _ => m
  | [] =>
    match rd.errorField with
    | some e => e
    | none => "Unknown error"

/-- `core.py` `add_to_cart` (lines 178-275), returning the Python triple
`(success, cookie_data, error_message)`.  `post` is the outcome of the
add-to-cart POST (`None` payload models a JSON body that failed to parse,
which the code replaces by `{}`); `verifyFetch` is the outcome of the
follow-up checkout-page fetch used by `_verify_cart_at_checkout`;
`sessionCookie` is what `_extract_session_cookie` would return from the
session's cookie jar. -/
def add_to_cart (post : Fetch (Option AtcResponse)) (verifyFetch : Fetch String)
    (sessionCookie : Option CookieData) : Bool × Option CookieData × Option String :=
  match post with
  | .failure e => (false, none, some e)
  | .response status rdOpt =>
    if status = 200 then
      match rdOpt with
      | some rd =>
        if rd.success then
          if rd.qtm_quote_item_ids ≠ "" ∧ rd.qtm_quote_item_qtys ≠ 0 ∧
              0 < rd.qtm_quote_item_qtys then
            if verify_cart_at_checkout verifyFetch then
              (true, sessionCookie, none)
            else
              (false, none, some "Cart not valid at checkout (phantom cart)")
          else
            (false, none, some "No items added to cart (out of stock?)")
        else
          (false, none, some (atc_error_message rd))
      | none =>
        -- unparsable JSON body: `response_data = {}`, `success` is absent
        (false, none, some "Unknown error")
    else
      (false, none, some ("HTTP " ++ toString status))

/-- Result of one `_attempt_atc` call (`monitor.py` lines 350-417): the
boolean returned to `asyncio.gather`, and whether a `CartSession` row was
committed for this attempt. -/
structure AtcAttemptOutcome where
  returned : Bool
  cartSessionCreated : Bool
deriving DecidableEq, Repr

/-- `monitor.py` `_attempt_atc`: runs `add_to_cart` in a fresh session; a
`CartSession` record is created and `True` returned exactly when the call
succeeded and produced a cookie; otherwise the failure is logged and
`False` returned. -/
def attempt_atc (post : Fetch (Option AtcResponse)) (verifyFetch : Fetch String)
    (sessionCookie : Option CookieData) : AtcAttemptOutcome :=
  match add_to_cart post verifyFetch sessionCookie with
  | (success, cookie, _error) =>
    if success && cookie.isSome then ⟨true, true⟩ else ⟨false, false⟩

/-- `config.py` `Settings.default_scan_interval` (default `0.1` seconds). -/
def default_scan_interval : ℚ := 1/10

/-- `config.py` `Settings.cart_hold_time` (default `1020` seconds, i.e. 17
minutes). -/
def cart_hold_time : Nat := 1020

/-- Observable effects of one monitoring-loop iteration
(`TaskManager._run_monitor`, `monitor.py` lines 171-331), in program
order.  `persistScan` is the commit of `task.scan_count`,
`task.tickets_available` and `task.last_scan_at`; `persistStatus` is a
commit of `task.status`; `spawnAttempts` is the concurrent launch of the
given number of `_attempt_atc` coroutines for one slot; `sleepFor` is an
`asyncio.sleep` of the given number of seconds. -/
inductive MonitorAction where
  | persistScan (scanCount : Nat) (ticketsAvailable : Int)
  | broadcastScan (scanCount : Nat) (ticketsAvailable : Int)
  | logEntry (level : String) (message : String)
  | discordNotify
  | spawnAttempts (count : Nat) (date : String) (timeShort : String)
  | persistStatus (status : TaskStatus)
  | broadcastStatus (status : TaskStatus)
  | sleepFor (seconds : ℚ)
deriving DecidableEq, Repr

/-- The local loop variables of `_run_monitor` (lines 167-169):
`scan_count`, `previous_data`, `no_tickets_logged`. -/
structure LoopState where
  scan_count : Nat
  previous_data : Option Snapshot
  no_tickets_logged : Bool
deriving DecidableEq, Repr

/-- External-world oracle for one loop iteration.  `optionNumber` models
`bot.get_option_number` for the fixed event id (arguments: variation,
date, time); `attemptResult` gives the result that the i-th spawned
`_attempt_atc` coroutine for a slot (date, short time) delivers to
`asyncio.gather` (`Except.error` models a raised exception collected via
`return_exceptions=True`); `taskExists` tells whether the
`db.query(Task)` lookups find the task row. -/
structure RaceEnv where
  optionNumber : String → String → String → Option String
  attemptResult : String → String → Nat → Except String Bool
  taskExists : Bool

/-- `monitor.py` line 252: `max_possible_carts = qty_available // quantity`
(Python floor division). -/
def max_possible_carts (qty_available quantity : Int) : Int :=
  qty_available.fdiv quantity

/-- `monitor.py` line 253:
`actual_threads = min(num_threads, max(1, max_possible_carts))`. -/
def actual_threads (num_threads quantity qty_available : Int) : Int :=
  min num_threads (max 1 (max_possible_carts qty_available quantity))

/-- Number of `_attempt_atc` coroutines created by
`for _ in range(actual_threads)` (lines 261-269): `range` of a
non-positive value is empty. -/
def atcAttemptsSpawned (num_threads quantity qty_available : Int) : Nat :=
  (actual_threads num_threads quantity qty_available).toNat

/-- The list delivered by `asyncio.gather` for one race: the oracle result
of each of the `n` spawned attempts at the given slot. -/
def raceResults (env : RaceEnv) (date timeShort : String) (n : Nat) :
    List (Except String Bool) :=
  (List.range n).map (env.attemptResult date timeShort)

/-- `monitor.py` line 274:
`any(r is True for r in results if not isinstance(r, Exception))`. -/
def raceAnySuccess (env : RaceEnv) (date timeShort : String) (n : Nat) : Bool :=
  (raceResults env date timeShort n).any (fun r =>
    match r with
    | Except.ok b => b
    | Except.error _ => false)

/-- The log message of `monitor.py` lines 255-258. -/
def runThreadsMsg (num_threads quantity qty_available : Int) : String :=
  "Running " ++ toString (actual_threads num_threads quantity qty_available) ++
    " ATC thread(s) (limited by " ++
    toString (max_possible_carts qty_available quantity) ++ " possible carts)"

/-- `monitor.py` lines 250-321: the race at one slot whose option number
resolved.  Spawns the capped number of attempts and gathers them.  On at
least one success: log, persist status `success` (when the task row
exists), broadcast, hold the cart for `cart_hold_time` seconds, log,
persist status `running`, broadcast, and reset the scan state
(`scan_count = 0`, `previous_data = None`, `no_tickets_logged = False`);
the inner `for` loop then continues (third component `false`).  With no
success the loop `break`s (third component `true`) and the state is kept. -/
def raceAtSlot (env : RaceEnv) (quantity num_threads : Int) (date timeShort : String)
    (qty_available : Int) (ls : LoopState) : LoopState × List MonitorAction × Bool :=
  let n := atcAttemptsSpawned num_threads quantity qty_available
  let runLog := MonitorAction.logEntry "info" (runThreadsMsg num_threads quantity qty_available)
  if raceAnySuccess env date timeShort n then
    (⟨0, none, false⟩,
     [runLog, MonitorAction.spawnAttempts n date timeShort,
      MonitorAction.logEntry "success" "Successfully carted! Sleeping 17 min then will re-cart..."
     ] ++
     (if env.taskExists then [MonitorAction.persistStatus TaskStatus.success] else []) ++
     [MonitorAction.broadcastStatus TaskStatus.success,
      MonitorAction.sleepFor (cart_hold_time : ℚ),
      MonitorAction.logEntry "info" "Cart hold expired, restarting to re-cart items..."
     ] ++
     (if env.taskExists then [MonitorAction.persistStatus TaskStatus.running] else []) ++
     [MonitorAction.broadcastStatus TaskStatus.running],
     false)
  else
    (ls, [runLog, MonitorAction.spawnAttempts n date timeShort], true)

/-- The log message of `monitor.py` lines 233-236. -/
def attemptLogMsg (quantity : Int) (date tim : String) (qty_available : Int) : String :=
  "Attempting to buy " ++ toString quantity ++ " ticket(s) for " ++ date ++ " @ " ++
    tim ++ " (" ++ toString qty_available ++ " available)"

/-- `monitor.py` line 240:
`variation = ticket['variations'][0] if ticket['variations'] else None`,
with the following `if not variation: continue` treating the empty string
as missing. -/
def headVariation (t : TicketEntry) : Option String :=
  match t.variations with
  | [] => none
  | v :: _ => if v = "" then none else some v

/-- The inner `for ticket in tickets` loop of the processing block
(`monitor.py` lines 230-321): skip slots with too few tickets, log an
attempt otherwise, skip slots without variation or without a resolved
option number, and run `raceAtSlot` on the rest.  The third component
records whether the loop was left by `break` (a race that won nothing). -/
def processTickets (env : RaceEnv) (quantity num_threads : Int) (date : String) :
    List TicketEntry → LoopState → LoopState × List MonitorAction × Bool
  | [], ls => (ls, [], false)
  | t :: rest, ls =>
    if quantity ≤ t.qty_available then
      let aLog := MonitorAction.logEntry "info" (attemptLogMsg quantity date t.time t.qty_available)
      match headVariation t with
      | none =>
        let r := processTickets env quantity num_threads date rest ls
        (r.1, aLog :: r.2.1, r.2.2)
      | some v =>
        match env.optionNumber v date t.time with
        | some _optNum =>
          let r := raceAtSlot env quantity num_threads date (t.time.take 5) t.qty_available ls
          if r.2.2 then (r.1, aLog :: r.2.1, true)
          else
            let r2 := processTickets env quantity num_threads date rest r.1
            (r2.1, aLog :: (r.2.1 ++ r2.2.1), r2.2.2)
        | none =>
          let r := processTickets env quantity num_threads date rest ls
          (r.1, aLog :: r.2.1, r.2.2)
    else
      processTickets env quantity num_threads date rest ls

/-- The outer `for date, tickets in data.items()` loop with its
`for`/`else`/`break` footer (`monitor.py` lines 229-324): a broken inner
loop breaks the outer loop as well; an exhausted inner loop continues
with the next date. -/
def processDates (env : RaceEnv) (quantity num_threads : Int) :
    List (String × List TicketEntry) → LoopState → LoopState × List MonitorAction
  | [], ls => (ls, [])
  | (date, tickets) :: rest, ls =>
    let r := processTickets env quantity num_threads date tickets ls
    if r.2.2 then (r.1, r.2.1)
    else
      let r2 := processDates env quantity num_threads rest r.1
      (r2.1, r.2.1 ++ r2.2)

/-- `monitor.py` lines 205-213: the first-scan / every-50th-scan status log
and its effect on `no_tickets_logged`. -/
def scanLogBlock (scan_count : Nat) (total : Int) (no_tickets_logged : Bool) :
    List MonitorAction × Bool :=
  if scan_count = 1 ∨ scan_count % 50 = 0 then
    if 0 < total then
      ([MonitorAction.logEntry "info"
          ("Scan #" ++ toString scan_count ++ ": " ++ toString total ++ " tickets available")],
       false)
    else
      if no_tickets_logged = false ∨ scan_count = 1 then
        ([MonitorAction.logEntry "info"
            ("Scan #" ++ toString scan_count ++ ": No tickets available - waiting for release...")],
         true)
      else ([], no_tickets_logged)
  else ([], no_tickets_logged)

/-- One iteration of the `while True` polling loop of `_run_monitor`
(`monitor.py` lines 171-331), after the availability fetch returned
`data`: increment `scan_count`, compute the clamped total, persist the
scan fields (when the task row exists), broadcast the scan update, log
periodically, and then either run the processing block (when the guard of
line 216 holds), or back off 5 extra seconds (when `data` is `None` — for
an empty dict the `elif` of line 326 is falsy), always ending with the
normal scan-interval sleep. -/
def monitor_iteration (env : RaceEnv) (quantity num_threads : Int) (ls : LoopState)
    (data : Option Snapshot) : LoopState × List MonitorAction :=
  let scan_count := ls.scan_count + 1
  let total := totalAvailableOpt data
  let persistActs : List MonitorAction :=
    if env.taskExists then [MonitorAction.persistScan scan_count total] else []
  let logBlock := scanLogBlock scan_count total ls.no_tickets_logged
  let baseActs := persistActs ++ [MonitorAction.broadcastScan scan_count total] ++ logBlock.1
  match data with
  | some d =>
    if raceGuard (some d) ls.previous_data then
      let changeLog := MonitorAction.logEntry "info"
        ("Change detected! " ++ toString total ++ " tickets available - processing...")
      let blockResult := processDates env quantity num_threads d ⟨scan_count, some d, false⟩
      (blockResult.1,
       baseActs ++ [changeLog, MonitorAction.discordNotify] ++ blockResult.2 ++
         [MonitorAction.sleepFor default_scan_interval])
    else
      (⟨scan_count, ls.previous_data, logBlock.2⟩,
       baseActs ++ [MonitorAction.sleepFor default_scan_interval])
  | none =>
    (⟨scan_count, ls.previous_data, logBlock.2⟩,
     baseActs ++ [MonitorAction.sleepFor 5, MonitorAction.sleepFor default_scan_interval])

/-- The supervisor state relevant to `TaskManager`: the keys of
`self.active_tasks` (ids with a live handle) and the persisted `status`
column of each task row (`none` for a missing row). -/
structure ManagerState where
  active : List Nat
  taskStatus : Nat → Option TaskStatus

/-- `monitor.py` `TaskManager.start_task` (lines 44-71): reject when the id
already has a handle; otherwise commit status `running`, record the
handle, and report success. -/
def TaskManager.start_task (id : Nat) (st : ManagerState) : Bool × ManagerState :=
  if id ∈ st.active then (false, st)
  else
    (true,
     { active := id :: st.active,
       taskStatus := fun i => if i = id then some TaskStatus.running else st.taskStatus i })

/-- `monitor.py` lines 90-103: the DB update at the end of `stop_task`,
reached only when no `KeyError` was raised before it: write `stopped`
over a `running` status (returning `True`); otherwise leave the row
alone and return `was_active`. -/
def TaskManager.stop_task_db_update (id : Nat) (was_active : Bool) (st : ManagerState) :
    Except String Bool × ManagerState :=
  match st.taskStatus id with
  | some s =>
    if s = TaskStatus.running then
      (Except.ok true,
       { active := st.active,
         taskStatus := fun i => if i = id then some TaskStatus.stopped else st.taskStatus i })
    else (Except.ok was_active, st)
  | none => (Except.ok was_active, st)

/-- `monitor.py` `TaskManager.stop_task` (lines 73-105), including its
interaction with the cancelled runtime.  `runtimeStarted` tells whether
the monitor coroutine had begun executing.  With a live handle,
`stop_task` cancels it and `await`s it; the await only resumes once the
runtime has fully unwound, and a started runtime's `finally`
(lines 341-348) has then already removed the handle (under a membership
guard).  The unguarded `del self.active_tasks[task_id]` at line 86
therefore raises `KeyError` (`Except.error "KeyError"`), and the
conditional STOPPED write at lines 91-95 is never reached.  Only a
never-started runtime (whose body, and `finally`, never ran) or the
no-handle path reach the DB update. -/
def TaskManager.stop_task (id : Nat) (runtimeStarted : Bool) (st : ManagerState) :
    Except String Bool × ManagerState :=
  let was_active := decide (id ∈ st.active)
  if was_active then
    -- cancel + await: the started runtime's finally removes the handle first
    let active1 :=
      if runtimeStarted then st.active.filter (fun i => decide (i ≠ id)) else st.active
    if id ∈ active1 then
      -- `del self.active_tasks[task_id]` finds the key and removes it
      TaskManager.stop_task_db_update id was_active
        { active := active1.filter (fun i => decide (i ≠ id)), taskStatus := st.taskStatus }
    else
      -- the key is already gone: `del` raises KeyError, nothing else runs
      (Except.error "KeyError", { active := active1, taskStatus := st.taskStatus })
  else
    TaskManager.stop_task_db_update id was_active st

/-- Distinguished steps taken by the `POST /tasks/{id}/start` endpoint
(`api/tasks.py` lines 104-159), in program order: dropping a stale done
handle, resetting a stale `running` status to `pending`, and invoking
`task_manager.start_task`. -/
inductive ApiAction where
  | cleanupStale
  | resetToPending
  | invokeStart
deriving DecidableEq, Repr

/-- HTTP result of an endpoint: a JSON message or an `HTTPException`. -/
inductive ApiResponse where
  | ok (message : String)
  | httpError (code : Nat) (message : String)
deriving DecidableEq, Repr

/-- Result of the start endpoint: response, final supervisor/DB state, and
the trace of distinguished steps. -/
structure ApiStartOutcome where
  response : ApiResponse
  state : ManagerState
  actions : List ApiAction

/-- Removal of a task's handle from `active_tasks` (and `task_data`). -/
def removeActive (id : Nat) (st : ManagerState) : ManagerState :=
  { active := st.active.filter (fun i => decide (i ≠ id)), taskStatus := st.taskStatus }

/-- Overwrite of the persisted status of task `id`. -/
def setTaskStatus (id : Nat) (s : TaskStatus) (st : ManagerState) : ManagerState :=
  { active := st.active, taskStatus := fun i => if i = id then some s else st.taskStatus i }

/-- `api/tasks.py` lines 149-159: call `task_manager.start_task`; on `True`
answer "Task started"; on `False` re-check the handle table and either
answer "Task already running" or raise 500. -/
def api_start_invoke (id : Nat) (st : ManagerState) (acts : List ApiAction) : ApiStartOutcome :=
  let r := TaskManager.start_task id st
  if r.1 then ⟨ApiResponse.ok "Task started", r.2, acts ++ [ApiAction.invokeStart]⟩
  else if id ∈ r.2.active then
    ⟨ApiResponse.ok "Task already running", r.2, acts ++ [ApiAction.invokeStart]⟩
  else ⟨ApiResponse.httpError 500 "Failed to start task", r.2, acts ++ [ApiAction.invokeStart]⟩

/-- `api/tasks.py` lines 137-147: the DB-status reconciliation after the
stale-handle check.  `status` is the status read from the task row.  A
`running` row with a live handle answers "already running"; a `running`
row without one is reset to `pending` before proceeding. -/
def api_start_reconcile (id : Nat) (status : TaskStatus) (st : ManagerState)
    (acts : List ApiAction) : ApiStartOutcome :=
  if status = TaskStatus.running then
    if id ∈ st.active then ⟨ApiResponse.ok "Task already running", st, acts⟩
    else api_start_invoke id (setTaskStatus id TaskStatus.pending st) (acts ++ [ApiAction.resetToPending])
  else api_start_invoke id st acts

/-- The `POST /tasks/{id}/start` endpoint (`api/tasks.py` lines 104-159).
`done id` models `active_tasks[id].done()`.  Missing row: 404.  A live
handle that is not done answers "already running"; a done handle is
dropped first.  Then the status reconciliation and the manager call. -/
def api_start_task (id : Nat) (done : Nat → Bool) (st : ManagerState) : ApiStartOutcome :=
  match st.taskStatus id with
  | none => ⟨ApiResponse.httpError 404 "Task not found", st, []⟩
  | some status =>
    if id ∈ st.active then
      if done id then
        api_start_reconcile id status (removeActive id st) [ApiAction.cleanupStale]
      else ⟨ApiResponse.ok "Task already running", st, []⟩
    else api_start_reconcile id status st []

/-- Request body of `POST /tasks` (`schemas.TaskCreate`). -/
structure TaskCreate where
  product_url : String
  quantity : Int
  num_threads : Int
deriving DecidableEq, Repr

/-- A persisted task row as created by `create_task` (only the fields the
endpoint sets; `status` defaults to `pending` per `models.Task`). -/
structure TaskRow where
  product_url : String
  quantity : Int
  num_threads : Int
  status : TaskStatus
deriving DecidableEq, Repr

/-- `api/tasks.py` `create_task` (lines 17-43): reject with 400 unless the
URL contains the vendor domain and the quantity is between 1 and 4;
otherwise append a new `pending` task row.  Returns the task table after
the call and the HTTP outcome. -/
def create_task (req : TaskCreate) (dbTasks : List TaskRow) :
    List TaskRow × Except (Nat × String) TaskRow :=
  if containsSub req.product_url "audidefuehrungen2.regiondo.de" = false then
    (dbTasks, Except.error (400, "Invalid product URL"))
  else if ¬(1 ≤ req.quantity ∧ req.quantity ≤ 4) then
    (dbTasks, Except.error (400, "Quantity must be between 1 and 4"))
  else
    let row : TaskRow := ⟨req.product_url, req.quantity, req.num_threads, TaskStatus.pending⟩
    (dbTasks ++ [row], Except.ok row)

/-! ## Theorems -/

/-- Floor division of integers is at least 1 when the (positive) divisor is
at most the dividend. -/
theorem fdiv_one_le {Q A : Int} (hQ : 1 ≤ Q) (hA : Q ≤ A) : 1 ≤ A.fdiv Q := by
  rw [Int.fdiv_eq_ediv _ (by omega)]
  rw [Int.le_ediv_iff_mul_le (by omega)]
  omega

/-- Claim C1: for a detected slot with available quantity `A`, requested
quantity `Q` (under the race guard `Q ≤ A`) and caller-requested thread
count `T`, the race spawns exactly `min T (A / Q)` (floor division)
concurrent add-to-cart attempts, so never more than `T` and never more
than `A / Q`; e.g. `A = 10`, `Q = 4`, `T = 5` spawns exactly 2. -/
theorem race_spawn_count_min (T Q A : Int) (hT : 0 ≤ T) (hQ : 1 ≤ Q) (hA : Q ≤ A) :
    (atcAttemptsSpawned T Q A : Int) = min T (A.fdiv Q) ∧
    atcAttemptsSpawned T Q A ≤ T.toNat ∧
    (atcAttemptsSpawned T Q A : Int) ≤ A.fdiv Q := by
  have h1 : 1 ≤ A.fdiv Q := fdiv_one_le hQ hA
  have hmax : max 1 (max_possible_carts A Q) = A.fdiv Q := by
    unfold max_possible_carts
    exact max_eq_right h1
  have hth : actual_threads T Q A = min T (A.fdiv Q) := by
    unfold actual_threads
    rw [hmax]
  have hnn : 0 ≤ min T (A.fdiv Q) := le_min hT (by omega)
  have hcast : (atcAttemptsSpawned T Q A : Int) = min T (A.fdiv Q) := by
    unfold atcAttemptsSpawned
    rw [hth]
    exact Int.toNat_of_nonneg hnn
  refine ⟨hcast, ?_, ?_⟩
  · unfold atcAttemptsSpawned
    rw [hth]
    exact Int.toNat_le_toNat (min_le_left _ _)
  · rw [hcast]
    exact min_le_right _ _

/-- Witness for C1: `A = 10`, `Q = 4`, `T = 5` spawns exactly 2 attempts,
which equals `min 5 (10 / 4)`. -/
theorem race_spawn_count_min_witness :
    atcAttemptsSpawned 5 4 10 = 2 ∧
    (atcAttemptsSpawned 5 4 10 : Int) = min 5 ((10 : Int).fdiv 4) :=
  ⟨by decide, (race_spawn_count_min 5 4 10 (by norm_num) (by norm_num) (by norm_num)).1⟩

/-- Supervisor state during task 7's post-success cart-hold sleep: live
handle present, persisted status `success`. -/
def holdState : ManagerState :=
  { active := [7], taskStatus := fun i => if i = 7 then some TaskStatus.success else none }

/-- Counterexample to claim C2 as stated: stopping a task whose started
runtime is inside the cart-hold sleep (persisted status `success`) never
writes `stopped` — the runtime's cancellation cleanup has already removed
the handle, so `stop_task`'s own `del` raises `KeyError` before the
status write, and the persisted status stays `success`. -/
theorem stop_task_cart_hold_counterexample :
    holdState.taskStatus 7 = some TaskStatus.success ∧
    7 ∈ holdState.active ∧
    (TaskManager.stop_task 7 true holdState).1 = Except.error "KeyError" ∧
    (TaskManager.stop_task 7 true holdState).2.taskStatus 7 = some TaskStatus.success ∧
    ¬((TaskManager.stop_task 7 true holdState).2.taskStatus 7 = some TaskStatus.stopped) := by
  refine ⟨rfl, by simp [holdState], ?_, ?_, ?_⟩ <;>
    simp [TaskManager.stop_task, holdState]

/-- Claim C2 (amended): cancelling a task whose started runtime holds a
live handle always ends with the handle removed from the active-handle
set (by the runtime's own cancellation cleanup), but `stop_task` raises
`KeyError` at its unguarded `del` after awaiting the runtime, so the
persisted status is never written — during the cart-hold sleep it stays
`success`, and even a polling task stays `running`.  The `stopped` status
is written only on the paths that reach the DB update — no live handle,
or a runtime that never began executing — and only over a `running`
status. -/
theorem stop_task_keyerror_and_status (id : Nat) (st : ManagerState) :
    (id ∈ st.active →
      (TaskManager.stop_task id true st).1 = Except.error "KeyError" ∧
      id ∉ (TaskManager.stop_task id true st).2.active ∧
      (TaskManager.stop_task id true st).2.taskStatus id = st.taskStatus id) ∧
    (id ∉ st.active → ∀ started,
      (TaskManager.stop_task id started st).2.taskStatus id =
        (if st.taskStatus id = some TaskStatus.running then some TaskStatus.stopped
         else st.taskStatus id) ∧
      id ∉ (TaskManager.stop_task id started st).2.active) ∧
    (id ∈ st.active →
      (TaskManager.stop_task id false st).2.taskStatus id =
        (if st.taskStatus id = some TaskStatus.running then some TaskStatus.stopped
         else st.taskStatus id) ∧
      id ∉ (TaskManager.stop_task id false st).2.active) := by
  refine ⟨?_, ?_, ?_⟩
  · intro hm
    have hdel : id ∉ st.active.filter (fun i => decide (i ≠ id)) := by
      simp [List.mem_filter]
    refine ⟨?_, ?_, ?_⟩ <;> simp [TaskManager.stop_task, hm, hdel]
  · intro hm started
    unfold TaskManager.stop_task TaskManager.stop_task_db_update
    rcases hst : st.taskStatus id with _ | s
    · simp [hm, hst]
    · by_cases hr : s = TaskStatus.running
      · subst hr
        simp [hm, hst]
      · simp [hm, hst, hr]
  · intro hm
    unfold TaskManager.stop_task TaskManager.stop_task_db_update
    rcases hst : st.taskStatus id with _ | s
    · simp [hm, hst, List.mem_filter]
    · by_cases hr : s = TaskStatus.running
      · subst hr
        simp [hm, hst, List.mem_filter]
      · simp [hm, hst, hr, List.mem_filter]

/-- Witness for the amended C2: stopping task 1, whose started runtime is
live and whose persisted status is `running`, yields the `KeyError`, the
empty handle set, and an unchanged (`running`, not `stopped`) status. -/
theorem stop_task_keyerror_and_status_witness :
    (TaskManager.stop_task 1 true
        ⟨[1], fun i => if i = 1 then some TaskStatus.running else none⟩).1 =
      Except.error "KeyError" ∧
    1 ∉ (TaskManager.stop_task 1 true
        ⟨[1], fun i => if i = 1 then some TaskStatus.running else none⟩).2.active ∧
    (TaskManager.stop_task 1 true
        ⟨[1], fun i => if i = 1 then some TaskStatus.running else none⟩).2.taskStatus 1 =
      (⟨[1], fun i => if i = 1 then some TaskStatus.running else none⟩ :
        ManagerState).taskStatus 1 :=
  (stop_task_keyerror_and_status 1
    ⟨[1], fun i => if i = 1 then some TaskStatus.running else none⟩).1 (by simp)

/-- Claim C3: when the add-to-cart POST reports vendor success with a
non-empty quote-item id and positive quantity, but the checkout-page
verification in the same session finds a negative textual indicator, the
outcome is the rejection triple (`success = False` with the phantom-cart
error), not a success, and `_attempt_atc` creates no `CartSession` for
the attempt; this holds whatever positive indicators the page also
contains, so negative indicators override positive ones. -/
theorem phantom_cart_rejected (rd : AtcResponse) (html : String) (ck : Option CookieData)
    (hs : rd.success = true) (hids : rd.qtm_quote_item_ids ≠ "")
    (hqty : 0 < rd.qtm_quote_item_qtys)
    (hneg : ∃ ind ∈ error_indicators, containsSub html ind = true) :
    verify_cart_at_checkout (Fetch.response 200 html) = false ∧
    add_to_cart (Fetch.response 200 (some rd)) (Fetch.response 200 html) ck =
      (false, none, some "Cart not valid at checkout (phantom cart)") ∧
    (attempt_atc (Fetch.response 200 (some rd)) (Fetch.response 200 html) ck).cartSessionCreated
      = false := by
  have hany : error_indicators.any (fun ind => containsSub html ind) = true := by
    rw [List.any_eq_true]
    obtain ⟨i, hi, hc⟩ := hneg
    exact ⟨i, hi, hc⟩
  have hv : verify_cart_at_checkout (Fetch.response 200 html) = false := by
    unfold verify_cart_at_checkout
    simp [hany]
  have hcond : rd.qtm_quote_item_ids ≠ "" ∧ rd.qtm_quote_item_qtys ≠ 0 ∧
      0 < rd.qtm_quote_item_qtys := ⟨hids, by omega, hqty⟩
  have hadd : add_to_cart (Fetch.response 200 (some rd)) (Fetch.response 200 html) ck =
      (false, none, some "Cart not valid at checkout (phantom cart)") := by
    unfold add_to_cart
    simp [hs, hcond, hv]
  refine ⟨hv, hadd, ?_⟩
  unfold attempt_atc
  rw [hadd]
  rfl

/-- Witness for C3: a vendor-success response whose checkout page shows
"ausverkauft" next to the positive indicators "Zusammenfassung" and
"Weiter zur Kasse" is rejected and creates no cart session. -/
theorem phantom_cart_rejected_witness :
    add_to_cart
        (Fetch.response 200 (some ⟨true, "12345", 2, "/checkout/cart", [], none⟩))
        (Fetch.response 200 "Leider ausverkauft. Zusammenfassung Weiter zur Kasse")
        (some ⟨"frontend", "abc", "audidefuehrungen2.regiondo.de"⟩) =
      (false, none, some "Cart not valid at checkout (phantom cart)") ∧
    (attempt_atc
        (Fetch.response 200 (some ⟨true, "12345", 2, "/checkout/cart", [], none⟩))
        (Fetch.response 200 "Leider ausverkauft. Zusammenfassung Weiter zur Kasse")
        (some ⟨"frontend", "abc", "audidefuehrungen2.regiondo.de"⟩)).cartSessionCreated = false :=
  have h := phantom_cart_rejected ⟨true, "12345", 2, "/checkout/cart", [], none⟩
    "Leider ausverkauft. Zusammenfassung Weiter zur Kasse"
    (some ⟨"frontend", "abc", "audidefuehrungen2.regiondo.de"⟩)
    rfl (by decide) (by decide) ⟨"ausverkauft", by decide, by decide⟩
  ⟨h.2.1, h.2.2⟩

/-- Claim C7: `extract_event_details` returns the not-found pair on a
non-200 response or missing form-action / sku markers; inside the `try`
body only the transport call can raise, never marker absence, and the
enclosing handler converts even a transport failure into `(None, None)`,
so the whole call never propagates an exception. -/
theorem extract_event_details_error_handling (status : Nat) (page : ProductPage) :
    (extract_event_details_body (Fetch.response status page)).isOk = true ∧
    (∀ msg, extract_event_details_body (Fetch.failure msg) = Except.error msg) ∧
    (∀ msg, extract_event_details (Fetch.failure msg) = (none, none)) ∧
    (status ≠ 200 → extract_event_details (Fetch.response status page) = (none, none)) ∧
    (page.formAction = none → page.skuContent = none →
      extract_event_details (Fetch.response status page) = (none, none)) := by
  refine ⟨?_, fun msg => rfl, fun msg => rfl, ?_, ?_⟩
  · simp only [extract_event_details_body]
    split <;> rfl
  · intro hne
    simp [extract_event_details, extract_event_details_body, hne]
  · intro hfa hsku
    by_cases h200 : status = 200
    · simp [extract_event_details, extract_event_details_body, h200, hfa, hsku]
    · simp [extract_event_details, extract_event_details_body, h200]

/-- Witness for C7: a 404 response and a 200 response with both markers
missing each yield `(None, None)`. -/
theorem extract_event_details_witness :
    extract_event_details (Fetch.response 404 ⟨none, none⟩) = (none, none) ∧
    extract_event_details (Fetch.response 200 ⟨none, none⟩) = (none, none) :=
  ⟨(extract_event_details_error_handling 404 ⟨none, none⟩).2.2.2.1 (by decide),
   (extract_event_details_error_handling 200 ⟨none, none⟩).2.2.2.2 rfl rfl⟩

/-- Claim C5: at most one runtime instance per task id — `start_task`
returns `False` and changes nothing when the id already has a handle, and
two admissions in immediate succession yield exactly one handle for the
id (the second returns `False` and leaves the state untouched). -/
theorem start_task_single_instance (id : Nat) (st : ManagerState) :
    (id ∈ st.active → TaskManager.start_task id st = (false, st)) ∧
    (id ∉ st.active →
      (TaskManager.start_task id st).1 = true ∧
      (TaskManager.start_task id st).2.active.count id = 1 ∧
      (TaskManager.start_task id (TaskManager.start_task id st).2).1 = false ∧
      (TaskManager.start_task id (TaskManager.start_task id st).2).2 =
        (TaskManager.start_task id st).2) := by
  constructor
  · intro h
    simp [TaskManager.start_task, h]
  · intro h
    have h1 : TaskManager.start_task id st =
        (true,
         { active := id :: st.active,
           taskStatus := fun i => if i = id then some TaskStatus.running
             else st.taskStatus i }) := by
      simp [TaskManager.start_task, h]
    rw [h1]
    refine ⟨rfl, ?_, ?_, ?_⟩
    · show (id :: st.active).count id = 1
      rw [List.count_cons_self, List.count_eq_zero.mpr h]
    · simp [TaskManager.start_task]
    · simp [TaskManager.start_task]

/-- Witness for C5: admitting task 1 twice from an empty supervisor yields
one success, one rejection, one handle. -/
theorem start_task_single_instance_witness :
    (TaskManager.start_task 1 ⟨[], fun _ => none⟩).1 = true ∧
    (TaskManager.start_task 1 ⟨[], fun _ => none⟩).2.active.count 1 = 1 ∧
    (TaskManager.start_task 1 (TaskManager.start_task 1 ⟨[], fun _ => none⟩).2).1 = false ∧
    (TaskManager.start_task 1 (TaskManager.start_task 1 ⟨[], fun _ => none⟩).2).2 =
      (TaskManager.start_task 1 ⟨[], fun _ => none⟩).2 :=
  (start_task_single_instance 1 ⟨[], fun _ => none⟩).2 (by simp)

/-- Claim C6: an admission request for a task whose persisted status is
`running` but whose id has no live handle resets the status to `pending`
and then proceeds to start the runtime (answering "Task started" with the
handle recorded and the status re-set to `running` by the manager),
rather than refusing the admission. -/
theorem start_endpoint_heals_stale (id : Nat) (done : Nat → Bool) (st : ManagerState)
    (hs : st.taskStatus id = some TaskStatus.running) (ha : id ∉ st.active) :
    (api_start_task id done st).actions = [ApiAction.resetToPending, ApiAction.invokeStart] ∧
    (api_start_task id done st).response = ApiResponse.ok "Task started" ∧
    id ∈ (api_start_task id done st).state.active ∧
    (api_start_task id done st).state.taskStatus id = some TaskStatus.running := by
  have h1 : api_start_task id done st = api_start_reconcile id TaskStatus.running st [] := by
    simp [api_start_task, hs, ha]
  have h2 : api_start_reconcile id TaskStatus.running st [] =
      api_start_invoke id (setTaskStatus id TaskStatus.pending st) [ApiAction.resetToPending] := by
    simp [api_start_reconcile, ha]
  have h4 : TaskManager.start_task id (setTaskStatus id TaskStatus.pending st) =
      (true,
       { active := id :: st.active,
         taskStatus := fun i => if i = id then some TaskStatus.running
           else (setTaskStatus id TaskStatus.pending st).taskStatus i }) := by
    simp [TaskManager.start_task, setTaskStatus, ha]
  have h5 : api_start_invoke id (setTaskStatus id TaskStatus.pending st)
      [ApiAction.resetToPending] =
      ⟨ApiResponse.ok "Task started",
       { active := id :: st.active,
         taskStatus := fun i => if i = id then some TaskStatus.running
           else (setTaskStatus id TaskStatus.pending st).taskStatus i },
       [ApiAction.resetToPending, ApiAction.invokeStart]⟩ := by
    simp [api_start_invoke, h4]
  rw [h1, h2, h5]
  refine ⟨rfl, rfl, List.mem_cons_self id _, ?_⟩
  simp

/-- Witness for C6: a task with persisted status `running` and no live
handle is admitted through the pending reset and started. -/
theorem start_endpoint_heals_stale_witness :
    (api_start_task 0 (fun _ => false)
        ⟨[], fun i => if i = 0 then some TaskStatus.running else none⟩).actions =
      [ApiAction.resetToPending, ApiAction.invokeStart] ∧
    (api_start_task 0 (fun _ => false)
        ⟨[], fun i => if i = 0 then some TaskStatus.running else none⟩).response =
      ApiResponse.ok "Task started" :=
  have h := start_endpoint_heals_stale 0 (fun _ => false)
    ⟨[], fun i => if i = 0 then some TaskStatus.running else none⟩ rfl (by simp)
  ⟨h.1, h.2.1⟩

/-- Claim C10: `POST /tasks` creates a task exactly when the product URL
contains the vendor domain and the quantity is between 1 and 4; otherwise
it answers HTTP 400 and persists no task row. -/
theorem create_task_validates (req : TaskCreate) (db : List TaskRow) :
    ((create_task req db).2.isOk = true ↔
      (containsSub req.product_url "audidefuehrungen2.regiondo.de" = true ∧
       1 ≤ req.quantity ∧ req.quantity ≤ 4)) ∧
    (∀ e, (create_task req db).2 = Except.error e → e.1 = 400 ∧ (create_task req db).1 = db) ∧
    ((create_task req db).2.isOk = true →
      (create_task req db).1 =
        db ++ [⟨req.product_url, req.quantity, req.num_threads, TaskStatus.pending⟩]) := by
  cases hc : containsSub req.product_url "audidefuehrungen2.regiondo.de" with
  | false =>
    have h1 : (create_task req db).1 = db := by simp [create_task, hc]
    have h2 : (create_task req db).2 = Except.error (400, "Invalid product URL") := by
      simp [create_task, hc]
    refine ⟨?_, ?_, ?_⟩
    · rw [h2]
      constructor
      · intro hok
        exact absurd hok (by decide)
      · rintro ⟨hfc, -⟩
        exact absurd hfc (by decide)
    · intro e he
      rw [h2] at he
      injection he with h3
      subst h3
      exact ⟨rfl, h1⟩
    · intro hok
      rw [h2] at hok
      exact absurd hok (by decide)
  | true =>
    by_cases hq : 1 ≤ req.quantity ∧ req.quantity ≤ 4
    · have h1 : (create_task req db).1 =
          db ++ [⟨req.product_url, req.quantity, req.num_threads, TaskStatus.pending⟩] := by
        simp [create_task, hc, hq.1, hq.2]
      have h2 : (create_task req db).2 =
          Except.ok (⟨req.product_url, req.quantity, req.num_threads, TaskStatus.pending⟩ :
            TaskRow) := by
        simp [create_task, hc, hq.1, hq.2]
      refine ⟨?_, ?_, fun _ => h1⟩
      · rw [h2]
        exact ⟨fun _ => ⟨rfl, hq⟩, fun _ => rfl⟩
      · intro e he
        rw [h2] at he
        simp at he
    · have h1 : (create_task req db).1 = db := by simp [create_task, hc, hq]
      have h2 : (create_task req db).2 =
          Except.error (400, "Quantity must be between 1 and 4") := by
        simp [create_task, hc, hq]
      refine ⟨?_, ?_, ?_⟩
      · rw [h2]
        constructor
        · intro hok
          exact absurd hok (by decide)
        · rintro ⟨-, hb, hc2⟩
          exact absurd ⟨hb, hc2⟩ hq
      · intro e he
        rw [h2] at he
        injection he with h3
        subst h3
        exact ⟨rfl, h1⟩
      · intro hok
        rw [h2] at hok
        exact absurd hok (by decide)

/-- Witness for C10: a URL without the vendor domain is rejected with 400
and the task table is unchanged; a valid request appends one pending row. -/
theorem create_task_validates_witness :
    ((400 : Nat), "Invalid product URL").1 = 400 ∧
    (create_task ⟨"https://example.com/x", 2, 5⟩ []).1 = ([] : List TaskRow) :=
  (create_task_validates ⟨"https://example.com/x", 2, 5⟩ []).2.1
    (400, "Invalid product URL") rfl

/-- The periodic status-log block only ever emits log entries. -/
theorem scanLogBlock_only_logs (sc : Nat) (total : Int) (ntl : Bool) :
    ∀ a ∈ (scanLogBlock sc total ntl).1, ∃ lvl msg, a = MonitorAction.logEntry lvl msg := by
  intro a ha
  unfold scanLogBlock at ha
  split at ha
  · split at ha
    · simp at ha
      exact ⟨_, _, ha⟩
    · split at ha
      · simp at ha
        exact ⟨_, _, ha⟩
      · simp at ha
  · simp at ha

/-- Claim C4: a polling cycle whose snapshot has no strictly positive
availability (every slot quantity is zero or negative, so the clamped
total is zero) never invokes the cart race — the processing guard is
false and no attempt spawn occurs — regardless of whether the snapshot
differs from the previously observed one. -/
theorem no_race_without_positive_availability (env : RaceEnv) (quantity num_threads : Int)
    (ls : LoopState) (d : Snapshot)
    (h : ∀ kv ∈ d, ∀ t ∈ kv.2, t.qty_available ≤ 0) :
    raceGuard (some d) ls.previous_data = false ∧
    ∀ n date timeShort, MonitorAction.spawnAttempts n date timeShort ∉
      (monitor_iteration env quantity num_threads ls (some d)).2 := by
  have htot : totalAvailable d = 0 := by
    unfold totalAvailable
    apply List.sum_eq_zero
    intro x hx
    simp only [List.mem_map] at hx
    obtain ⟨kv, hkv, rfl⟩ := hx
    apply List.sum_eq_zero
    intro y hy
    simp only [List.mem_map] at hy
    obtain ⟨t, ht, rfl⟩ := hy
    exact max_eq_left (h kv hkv t ht)
  have hguard : raceGuard (some d) ls.previous_data = false := by
    simp only [raceGuard]
    rw [htot]
    simp
  refine ⟨hguard, ?_⟩
  intro n date timeShort hmem
  cases henv : env.taskExists <;>
    simp [monitor_iteration, hguard, henv] at hmem <;>
    · obtain ⟨lvl, msg, heq⟩ := scanLogBlock_only_logs _ _ _ _ hmem
      simp at heq

/-- Witness for C4: a snapshot with one zero-quantity slot triggers neither
the guard nor any attempt spawn, with empty previous snapshot memory. -/
theorem no_race_without_positive_availability_witness :
    raceGuard (some [("2024-05-01", [⟨"10:00", 0, 3, ["v1"]⟩])])
      (⟨0, none, false⟩ : LoopState).previous_data = false ∧
    MonitorAction.spawnAttempts 1 "2024-05-01" "10:00" ∉
      (monitor_iteration ⟨fun _ _ _ => none, fun _ _ _ => Except.error "boom", true⟩ 2 5
        ⟨0, none, false⟩ (some [("2024-05-01", [⟨"10:00", 0, 3, ["v1"]⟩])])).2 :=
  have h := no_race_without_positive_availability
    ⟨fun _ _ _ => none, fun _ _ _ => Except.error "boom", true⟩ 2 5 ⟨0, none, false⟩
    [("2024-05-01", [⟨"10:00", 0, 3, ["v1"]⟩])] (by decide)
  ⟨h.1, h.2 1 "2024-05-01" "10:00"⟩

/-- Claim C8: every iteration of the polling loop, whatever the fetch
produced (`None`, empty, unchanged or fresh data), first persists the
incremented scan counter together with the observed availability total
(and the scan timestamp) — the persist is the head of the iteration's
action trace, before any branch-specific handling. -/
theorem scan_persisted_every_iteration (env : RaceEnv) (quantity num_threads : Int)
    (ls : LoopState) (data : Option Snapshot) (hTask : env.taskExists = true) :
    (monitor_iteration env quantity num_threads ls data).2.head? =
      some (MonitorAction.persistScan (ls.scan_count + 1) (totalAvailableOpt data)) := by
  cases data with
  | none => simp [monitor_iteration, hTask, totalAvailableOpt]
  | some d =>
    by_cases hg : raceGuard (some d) ls.previous_data = true
    · simp [monitor_iteration, hTask, hg, totalAvailableOpt]
    · simp [monitor_iteration, hTask, hg, totalAvailableOpt]

/-- Witness for C8: a failed fetch (`None`) on the fourth scan still
persists `scan_count = 4` and total `0` first. -/
theorem scan_persisted_every_iteration_witness :
    (monitor_iteration ⟨fun _ _ _ => none, fun _ _ _ => Except.error "boom", true⟩ 2 5
        ⟨3, none, false⟩ none).2.head? =
      some (MonitorAction.persistScan 4 0) :=
  scan_persisted_every_iteration
    ⟨fun _ _ _ => none, fun _ _ _ => Except.error "boom", true⟩ 2 5 ⟨3, none, false⟩ none rfl

/-- Claim C9: a race with at least one successful attempt makes the task
persist status `success`, sleep the configured cart-hold duration
(default `cart_hold_time = 1020` seconds = 17 minutes), then persist
status `running` again with the scan state reset (`scan_count = 0`,
previous snapshot cleared) so polling resumes to re-acquire the cart. -/
theorem race_success_recart_cycle (env : RaceEnv) (quantity num_threads : Int)
    (date timeShort : String) (qty_available : Int) (ls : LoopState)
    (hTask : env.taskExists = true)
    (hWin : raceAnySuccess env date timeShort
      (atcAttemptsSpawned num_threads quantity qty_available) = true) :
    raceAtSlot env quantity num_threads date timeShort qty_available ls =
      (⟨0, none, false⟩,
       [MonitorAction.logEntry "info" (runThreadsMsg num_threads quantity qty_available),
        MonitorAction.spawnAttempts (atcAttemptsSpawned num_threads quantity qty_available)
          date timeShort,
        MonitorAction.logEntry "success"
          "Successfully carted! Sleeping 17 min then will re-cart...",
        MonitorAction.persistStatus TaskStatus.success,
        MonitorAction.broadcastStatus TaskStatus.success,
        MonitorAction.sleepFor (cart_hold_time : ℚ),
        MonitorAction.logEntry "info" "Cart hold expired, restarting to re-cart items...",
        MonitorAction.persistStatus TaskStatus.running,
        MonitorAction.broadcastStatus TaskStatus.running],
       false) ∧
    cart_hold_time = 1020 := by
  refine ⟨?_, rfl⟩
  simp [raceAtSlot, hWin, hTask]

/-- Witness for C9: a one-attempt race whose attempt reports success runs
the full success-hold-recycle sequence and resets the scan state. -/
theorem race_success_recart_cycle_witness :
    raceAtSlot ⟨fun _ _ _ => some "0", fun _ _ _ => Except.ok true, true⟩ 2 1
        "2024-05-01" "10:00" 2 ⟨9, none, true⟩ =
      (⟨0, none, false⟩,
       [MonitorAction.logEntry "info" (runThreadsMsg 1 2 2),
        MonitorAction.spawnAttempts (atcAttemptsSpawned 1 2 2) "2024-05-01" "10:00",
        MonitorAction.logEntry "success"
          "Successfully carted! Sleeping 17 min then will re-cart...",
        MonitorAction.persistStatus TaskStatus.success,
        MonitorAction.broadcastStatus TaskStatus.success,
        MonitorAction.sleepFor (cart_hold_time : ℚ),
        MonitorAction.logEntry "info" "Cart hold expired, restarting to re-cart items...",
        MonitorAction.persistStatus TaskStatus.running,
        MonitorAction.broadcastStatus TaskStatus.running],
       false) ∧
    cart_hold_time = 1020 :=
  race_success_recart_cycle ⟨fun _ _ _ => some "0", fun _ _ _ => Except.ok true, true⟩ 2 1
    "2024-05-01" "10:00" 2 ⟨9, none, true⟩ rfl (by decide)

end AudiTicket
